import Mathlib

/-!
# Verification of the ivshmem shared-memory benchmark core

A shallow embedding of the host writer (`host_writer.c`), the guest reader
(`guest_reader.c`) and the shared layout (`common.h`) of the ivshmem
host/guest IPC benchmark.  The two peers communicate through one shared
`struct shared_data`; each peer's code is embedded as a Lean function that
threads the shared state explicitly and records, as an event trace, every
store it performs into a shared field and every full memory fence
(`__sync_synchronize`) it issues.  The counterparty is modelled as an
oracle: the outcome of each bounded wait (`wait_for_guest_state`, the
guest's handshake poll loop) and the values the counterparty deposits in
its own fields are inputs of the embedding.  Durations returned by
`clock_gettime` are likewise oracle inputs (the code only moves them
around; their values are environment data).  The SHA-256 hasher is an
explicit function parameter, as the digest algorithm is opaque to the
protocol.  All machine integers are embedded as `Nat`; the one place the
code subtracts unsigned 64-bit values (`notification_est`) is embedded
with an explicit wrap-around (`sub64`) to mirror C unsigned arithmetic.
-/

/-! ## Constants (common.h, host_writer.c, guest_reader.c) -/

/-- `#define MAGIC 0xDEADBEEF` (common.h line 13). -/
def MAGIC : Nat := 0xDEADBEEF

/-- `HOST_STATE_UNINITIALIZED = 0` (common.h). -/
def HOST_UNINIT : Nat := 0
/-- `HOST_STATE_INITIALIZING = 1` (common.h). -/
def HOST_INITING : Nat := 1
/-- `HOST_STATE_READY = 2` (common.h). -/
def HOST_READY : Nat := 2
/-- `HOST_STATE_SENDING = 3` (common.h). -/
def HOST_SENDING : Nat := 3
/-- `HOST_STATE_COMPLETED = 4` (common.h). -/
def HOST_COMPLETED : Nat := 4

/-- `GUEST_STATE_UNINITIALIZED = 0` (common.h). -/
def GUEST_UNINIT : Nat := 0
/-- `GUEST_STATE_WAITING_HOST_INIT = 1` (common.h). -/
def GUEST_WAITING : Nat := 1
/-- `GUEST_STATE_READY = 2` (common.h). -/
def GUEST_READY : Nat := 2
/-- `GUEST_STATE_PROCESSING = 3` (common.h). -/
def GUEST_PROCESSING : Nat := 3
/-- `GUEST_STATE_ACKNOWLEDGED = 4` (common.h). -/
def GUEST_ACK : Nat := 4

/-- `SHMEM_SIZE = 64 * 1024 * 1024` (host_writer.c). -/
def SHMEM_SIZE : Nat := 64 * 1024 * 1024

/-- `offsetof(struct shared_data, buffer)`: six 32-bit words (24) +
32-byte digest (56) + error_code (60), `struct timing_data` 8-aligned at
64 (7 durations = 56, `struct performance_metrics` = 10 u64 + 5 u32
rounded to 104, one reserved u64 = 8, total 168) ends at 232, and
`_align[0] __attribute__((aligned(64)))` pushes `buffer` to 256. -/
def headerSize : Nat := 256

/-- `max_data_size = SHMEM_SIZE - header_size` (host_writer.c
test_latency / test_bandwidth). -/
def maxDataSize : Nat := SHMEM_SIZE - headerSize

/-- The guest's fixed local buffer: `max_buffer_size = 3840 * 2160 * 3`
(guest_reader.c monitor_latency). -/
def localBufferCapacity : Nat := 3840 * 2160 * 3

/-- The 4K frame used by test_latency: `3840 * 2160 * 3` bytes. -/
def latencyFrameSize : Nat := 3840 * 2160 * 3

/-- 64-bit unsigned subtraction with wrap-around, for operands below
`2^64`: mirrors C `uint64_t` subtraction. -/
def sub64 (a b : Nat) : Nat := (2 ^ 64 + a - b) % 2 ^ 64

/-! ## The shared region (struct shared_data, common.h) -/

/-- `struct timing_data` (the extended revision of common.h): the seven
guest-side durations plus the `guest_perf` performance-metrics record,
which the protocol treats as an opaque blob of bytes. -/
structure TimingData where
  guest_copy_duration : Nat
  guest_verify_duration : Nat
  guest_total_duration : Nat
  guest_hot_cache_duration : Nat
  guest_cold_cache_duration : Nat
  guest_second_pass_duration : Nat
  guest_cached_verify_duration : Nat
  guest_perf : Nat
deriving DecidableEq

/-- An all-zero `struct timing_data`, the result of the writer's
`memset(&shm->timing, 0, sizeof(struct timing_data))`. -/
def zeroTiming : TimingData := ⟨0, 0, 0, 0, 0, 0, 0, 0⟩

/-- `struct shared_data` (common.h): the one shared Frame Slot.  The
payload `buffer` is a byte list; `data_sha256` a 32-byte digest list. -/
structure SharedData where
  magic : Nat
  test_complete : Nat
  host_state : Nat
  guest_state : Nat
  sequence : Nat
  data_size : Nat
  data_sha256 : List Nat
  error_code : Nat
  timing : TimingData
  buffer : List Nat
deriving DecidableEq

/-! ## Store/fence event traces -/

/-- The shared fields a peer can store into.  `timing` stands for the
seven duration words of `struct timing_data`, `perf` for its nested
`guest_perf` record (the spec's `perf_sample`), `digest` for
`data_sha256`, `buffer` for the payload area. -/
inductive SField where
  | magic | test_complete | host_state | guest_state | sequence
  | data_size | digest | error_code | timing | perf | buffer
deriving DecidableEq

/-- One observable shared-memory event of a peer: a store into a shared
field (with the stored value for scalar fields, 0 for aggregates) or a
full memory fence (`__sync_synchronize`). -/
inductive Ev where
  | store (f : SField) (v : Nat)
  | fence
deriving DecidableEq

/-- The fields stored by a trace, in order. -/
def storedFields (evs : List Ev) : List SField :=
  evs.filterMap fun e => match e with
    | .store f _ => some f
    | .fence => none

/-- The values of the `sequence` stores of a trace, in order: the
sequence numbers a writer trace publishes. -/
def storedSeqs (evs : List Ev) : List Nat :=
  evs.filterMap fun e => match e with
    | .store .sequence v => some v
    | _ => none

/-! ## State-word setters (set_host_state / set_guest_state) -/

/-- `set_host_state` (host_writer.c): stores the new value and issues a
full fence, but only when the value changes. -/
def set_host_state (s : SharedData) (new : Nat) : SharedData × List Ev :=
  if s.host_state = new then (s, [])
  else ({ s with host_state := new }, [.store .host_state new, .fence])

/-- `set_guest_state` (guest_reader.c): stores the new value and issues
a full fence, but only when the value changes. -/
def set_guest_state (s : SharedData) (new : Nat) : SharedData × List Ev :=
  if s.guest_state = new then (s, [])
  else ({ s with guest_state := new }, [.store .guest_state new, .fence])

/-! ## Bounded waits -/

/-- `wait_for_guest_state` (host_writer.c): poll the guest state word
every 10 µs until it equals `expected` or the fuel (timeout divided by
the poll interval) runs out.  `view t` is the value of `guest_state` at
the t-th poll. -/
def wait_for_guest_state (view : Nat → Nat) (expected : Nat) :
    Nat → Nat → Bool
  | _, 0 => false
  | t, fuel + 1 =>
    if view t = expected then true
    else wait_for_guest_state view expected (t + 1) fuel

/-- The guest's handshake poll loop (guest_reader.c
initialize_guest_communication): up to 5000 polls, 10 ms apart, each
checking `magic == MAGIC && host_state == HOST_STATE_READY`.  `view t`
is the pair (magic, host_state) at the t-th poll. -/
def guest_wait_host (view : Nat → Nat × Nat) : Nat → Nat → Bool
  | _, 0 => false
  | t, fuel + 1 =>
    if (view t).1 = MAGIC ∧ (view t).2 = HOST_READY then true
    else guest_wait_host view (t + 1) fuel

/-- Number of handshake polls the guest performs: `init_timeout < 5000`. -/
def guestHandshakePolls : Nat := 5000

/-- Microseconds slept between guest handshake polls: `usleep(10000)`. -/
def guestHandshakeSleepUs : Nat := 10000

/-- `initialize_guest_communication` (guest_reader.c): true iff the host
became ready within the 5000-poll bound. -/
def init_guest_communication (view : Nat → Nat × Nat) : Bool :=
  guest_wait_host view 0 guestHandshakePolls

/-- The exit behaviour of the reader's startup (guest_reader.c
monitor_latency lines 536-538): on handshake failure the reader calls
`exit(1)`; otherwise it proceeds (no exit). -/
def readerInitExit (view : Nat → Nat × Nat) : Option Nat :=
  if init_guest_communication view then none else some 1

/-! ## Writer initialisation and shutdown -/

/-- Fuel for the writer's 10-second wait for `GUEST_STATE_READY` during
initialisation: 10 s at a 10 µs poll interval. -/
def writerInitWaitFuel : Nat := 1000000

/-- Result of `init_shared_memory`. -/
structure WriterInitResult where
  state : SharedData
  events : List Ev
  guestWasReady : Bool
  /-- The exit the function triggers: `init_shared_memory` has no abort
  path; on a handshake timeout it prints a warning and proceeds. -/
  exitCode : Option Nat

/-- `init_shared_memory` (host_writer.c lines 1165-1199): clear `magic`,
enter INITIALIZING, clear the header and timing fields, publish the
ready token and READY, then wait up to 10 s for the guest to be READY;
a timeout only logs a warning ("Proceeding anyway"). -/
def init_shared_memory (guestView : Nat → Nat) (s0 : SharedData) :
    WriterInitResult :=
  let s1 := { s0 with magic := 0 }
  let (s2, e2) := set_host_state s1 HOST_INITING
  let s3 := { s2 with sequence := 0, data_size := 0, error_code := 0,
                      test_complete := 0, data_sha256 := List.replicate 32 0,
                      timing := zeroTiming }
  let s4 := { s3 with magic := MAGIC }
  let (s5, e5) := set_host_state s4 HOST_READY
  let ready := wait_for_guest_state guestView GUEST_READY 0 writerInitWaitFuel
  { state := s5
    events :=
      [.store .magic 0] ++ e2 ++ [.fence] ++
      [.store .sequence 0, .store .data_size 0, .store .error_code 0,
       .store .test_complete 0, .store .digest 0, .store .timing 0,
       .store .perf 0, .fence] ++
      [.store .magic MAGIC] ++ e5 ++ [.fence]
    guestWasReady := ready
    exitCode := none }

/-- The writer's shutdown (host_writer.c main lines 1295-1297):
`set_host_state(COMPLETED); shm->test_complete = 1; fence`. -/
def writerShutdown (s0 : SharedData) : SharedData × List Ev :=
  let (s1, e1) := set_host_state s0 HOST_COMPLETED
  ({ s1 with test_complete := 1 }, e1 ++ [.store .test_complete 1, .fence])

/-! ## Writer iteration (test_latency / test_bandwidth) -/

/-- What the guest deposits into its own fields before the writer
observes ACKNOWLEDGED: the timing block and the error code. -/
structure GuestResponse where
  timing : TimingData
  error_code : Nat

/-- Environment oracle for one writer iteration: the outcomes of the
writer's three bounded waits and the guest's deposited values. -/
structure GuestOracle where
  reachesProcessing : Bool
  reachesAck : Bool
  resp : GuestResponse
  returnsReady : Bool

/-- The writer-side durations measured by `get_time_ns` in one
iteration (environment data). -/
structure WriterTimes where
  memcpyTime : Nat
  roundtripTime : Nat

/-- The environment's effect on the shared state when the guest reaches
ACKNOWLEDGED: the guest has stored its timing block, its error code and
its state word (fields the guest owns). -/
def applyGuestResponse (s : SharedData) (r : GuestResponse) : SharedData :=
  { s with timing := r.timing, error_code := r.error_code,
           guest_state := GUEST_ACK }

/-- One per-iteration record of the latency CSV
(`latency_results.csv`): the measured columns and the success flag. -/
structure CsvRow where
  iteration : Nat
  host_memcpy : Nat
  roundtrip : Nat
  guest_copy : Nat
  guest_verify : Nat
  hot : Nat
  cold : Nat
  second : Nat
  cached_verify : Nat
  notification : Nat
  total : Nat
  success : Bool
deriving DecidableEq

/-- The all-zero row written for a failed latency iteration
(host_writer.c lines 740, 752, 766). -/
def failRow (i : Nat) : CsvRow := ⟨i, 0, 0, 0, 0, 0, 0, 0, 0, 0, 0, false⟩

/-- One iteration of `test_latency` (host_writer.c lines 694-869).
Straight-line prelude: clear timing and error_code, fence; store
sequence, data_size and the digest, fence; copy the payload, fence;
`set_host_state(SENDING)`.  Then wait for PROCESSING (1 s) and
ACKNOWLEDGED (10 s): either timeout writes an all-zero row and
`continue`s.  A non-zero `error_code` likewise.  On success the guest
durations are read, `notification_est` computed, the success row
written, `set_host_state(READY)` issued and the guest's return to READY
awaited (timeout only warns). -/
def writerLatencyIter (frameSize : Nat) (payload hash : List Nat) (i : Nat)
    (orc : GuestOracle) (wt : WriterTimes) (s0 : SharedData) :
    SharedData × List Ev × CsvRow :=
  let s1 := { s0 with timing := zeroTiming, error_code := 0 }
  let s2 := { s1 with sequence := i, data_size := frameSize,
                      data_sha256 := hash }
  let s3 := { s2 with buffer := payload }
  let (s4, e4) := set_host_state s3 HOST_SENDING
  let pre : List Ev :=
    [.store .timing 0, .store .perf 0, .store .error_code 0, .fence,
     .store .sequence i, .store .data_size frameSize, .store .digest 0,
     .fence, .store .buffer 0, .fence] ++ e4
  if !orc.reachesProcessing then
    (s4, pre, failRow i)
  else if !orc.reachesAck then
    ({ s4 with guest_state := GUEST_PROCESSING }, pre, failRow i)
  else
    let s5 := applyGuestResponse s4 orc.resp
    if s5.error_code ≠ 0 then
      (s5, pre, failRow i)
    else
      let notif := if s5.timing.guest_total_duration < wt.roundtripTime
                   then sub64 wt.roundtripTime s5.timing.guest_total_duration
                   else 0
      let row : CsvRow :=
        ⟨i, wt.memcpyTime, wt.roundtripTime,
         s5.timing.guest_copy_duration, s5.timing.guest_verify_duration,
         s5.timing.guest_hot_cache_duration,
         s5.timing.guest_cold_cache_duration,
         s5.timing.guest_second_pass_duration,
         s5.timing.guest_cached_verify_duration,
         notif, wt.memcpyTime + wt.roundtripTime, true⟩
      let (s6, e6) := set_host_state s5 HOST_READY
      let s7 := if orc.returnsReady then { s6 with guest_state := GUEST_READY }
                else s6
      (s7, pre ++ e6, row)

/-- One per-iteration record of the bandwidth CSV. -/
structure BwRow where
  iteration : Nat
  success : Bool
deriving DecidableEq

/-- One iteration of `test_bandwidth` for one frame size (host_writer.c
lines 994-1127): same publication prelude as the latency iteration with
`sequence = 0xFFFF + iter`, then the PROCESSING (2 s) and ACKNOWLEDGED
(10 s) waits, the error check, and on success `set_host_state(READY)`. -/
def writerBandwidthIter (frameSize : Nat) (payload hash : List Nat)
    (iter : Nat) (orc : GuestOracle) (s0 : SharedData) :
    SharedData × List Ev × BwRow :=
  let seq := 0xFFFF + iter
  let s1 := { s0 with timing := zeroTiming, error_code := 0 }
  let s2 := { s1 with sequence := seq, data_size := frameSize,
                      data_sha256 := hash }
  let s3 := { s2 with buffer := payload }
  let (s4, e4) := set_host_state s3 HOST_SENDING
  let pre : List Ev :=
    [.store .timing 0, .store .perf 0, .store .error_code 0, .fence,
     .store .sequence seq, .store .data_size frameSize, .store .digest 0,
     .fence, .store .buffer 0, .fence] ++ e4
  if !orc.reachesProcessing then
    (s4, pre, ⟨iter + 1, false⟩)
  else if !orc.reachesAck then
    ({ s4 with guest_state := GUEST_PROCESSING }, pre, ⟨iter + 1, false⟩)
  else
    let s5 := applyGuestResponse s4 orc.resp
    if s5.error_code ≠ 0 then
      (s5, pre, ⟨iter + 1, false⟩)
    else
      let (s6, e6) := set_host_state s5 HOST_READY
      let s7 := if orc.returnsReady then { s6 with guest_state := GUEST_READY }
                else s6
      (s7, pre ++ e6, ⟨iter + 1, true⟩)

/-! ## Writer suites -/

/-- The iteration loop of `test_latency`: `for (i = 0; i < n; i++)`,
threading the shared state; collects the event trace and the CSV rows. -/
def writerLatencyLoop (frameSize : Nat) (payload hash : List Nat)
    (orcs : Nat → GuestOracle) (wts : Nat → WriterTimes) :
    Nat → Nat → SharedData → SharedData × List Ev × List CsvRow
  | _, 0, s => (s, [], [])
  | i, k + 1, s =>
    let (s1, ev, row) := writerLatencyIter frameSize payload hash i
      (orcs i) (wts i) s
    let (s2, evs, rows) :=
      writerLatencyLoop frameSize payload hash orcs wts (i + 1) k s1
    (s2, ev ++ evs, row :: rows)

/-- `test_latency` (host_writer.c): the 4K frame guard followed by the
iteration loop. -/
def test_latency (payload hash : List Nat) (orcs : Nat → GuestOracle)
    (wts : Nat → WriterTimes) (n : Nat) (s0 : SharedData) :
    SharedData × List Ev × List CsvRow :=
  if maxDataSize < latencyFrameSize then (s0, [], [])
  else writerLatencyLoop latencyFrameSize payload hash orcs wts 0 n s0

/-- The bandwidth frame-size table: 1080p, 1440p and 4K at 3 bytes per
pixel (host_writer.c test_bandwidth). -/
def bandwidthFrameSizes : List Nat :=
  [1920 * 1080 * 3, 2560 * 1440 * 3, 3840 * 2160 * 3]

/-- The per-size iteration loop of `test_bandwidth`: `for (iter = 0;
iter < iterations; iter++)` with `sequence = 0xFFFF + iter`. -/
def writerBandwidthSizeLoop (frameSize : Nat) (payload hash : List Nat)
    (orcs : Nat → GuestOracle) :
    Nat → Nat → SharedData → SharedData × List Ev × List BwRow
  | _, 0, s => (s, [], [])
  | iter, k + 1, s =>
    let (s1, ev, row) := writerBandwidthIter frameSize payload hash iter
      (orcs iter) s
    let (s2, evs, rows) :=
      writerBandwidthSizeLoop frameSize payload hash orcs (iter + 1) k s1
    (s2, ev ++ evs, row :: rows)

/-- The frame-size loop of `test_bandwidth`: sizes larger than the
region capacity are skipped; for each remaining size the per-size loop
runs with a fresh payload and digest. -/
def writerBandwidthSizes (payloads hashes : Nat → List Nat)
    (orcs : Nat → Nat → GuestOracle) (iters : Nat) :
    List Nat → SharedData → SharedData × List Ev
  | [], s => (s, [])
  | fs :: rest, s =>
    if maxDataSize < fs then writerBandwidthSizes payloads hashes orcs iters rest s
    else
      let (s1, ev, _) := writerBandwidthSizeLoop fs (payloads fs) (hashes fs)
        (orcs fs) 0 iters s
      let (s2, evs) := writerBandwidthSizes payloads hashes orcs iters rest s1
      (s2, ev ++ evs)

/-- `test_bandwidth` over the three frame sizes of the source table. -/
def test_bandwidth (payloads hashes : Nat → List Nat)
    (orcs : Nat → Nat → GuestOracle) (iters : Nat) (s0 : SharedData) :
    SharedData × List Ev :=
  writerBandwidthSizes payloads hashes orcs iters bandwidthFrameSizes s0

/-! ## Reader: memory-access phases and message processing -/

/-- Which buffer a reader phase touches: the shared region's payload or
a reader-local buffer. -/
inductive BufSrc where
  | shared | localBuf
deriving DecidableEq

/-- One phase-level action of the reader's measurement sequence
(guest_reader.c run_memory_access_tests / process_single_message). -/
inductive PhaseEv where
  /-- Strided 64-bit XOR read of the shared payload; `timed` marks
  whether a timer surrounds it. -/
  | readPayload (timed : Bool)
  /-- `flush_cache_range` clflush loop over the payload's lines. -/
  | flush
  /-- `__sync_synchronize`. -/
  | fenceP
  /-- `memcpy(measurement_buffer, data_ptr, data_size)`: the timed bulk
  copy of the payload into a reader-local buffer (Phase C). -/
  | copyToMeasurement (timed : Bool)
  /-- `memcpy(local_buffer, measurement_buffer, data_size)`. -/
  | copyToLocal
  /-- SHA-256 digest computation and comparison over `src`. -/
  | verifyDigest (src : BufSrc) (timed : Bool)
deriving DecidableEq

/-- The phase trace of `run_memory_access_tests` (guest_reader.c lines
225-330): untimed warm-up read, fence; timed hot read, fence (the fence
at line 278 closes the timed region); cache flush (ends in a fence),
timed cold read, fence; second flush, timed memcpy into the measurement
buffer, fence. -/
def memoryAccessPhases : List PhaseEv :=
  [.readPayload false, .fenceP,
   .readPayload true, .fenceP,
   .flush, .fenceP,
   .readPayload true, .fenceP,
   .flush, .fenceP,
   .copyToMeasurement true, .fenceP]

/-- The guest-side durations measured in one message (environment
data from the guest's clock). -/
structure ReaderTimes where
  hot : Nat
  cold : Nat
  second : Nat
  cachedVerify : Nat
  total : Nat
  perfBlob : Nat

/-- Result of `process_single_message`. -/
structure ReaderResult where
  state : SharedData
  events : List Ev
  phases : List PhaseEv
  success : Bool
  /-- The bytes the digest verification runs over. -/
  verifyInput : List Nat
  /-- The indices of `local_buffer` written by the
  `memcpy(local_buffer, measurement_buffer, data_size)` at line 450. -/
  localWrites : List Nat
  mallocOk : Bool

/-- `process_single_message` (guest_reader.c lines 404-515): enter
PROCESSING; read `sequence`, `data_size` and the advertised digest;
allocate the measurement buffer (`error_code = 2` and early return on
failure); run the memory-access phases, which copy `data_size` payload
bytes into the measurement buffer; copy the measurement buffer into the
fixed `local_buffer`; verify the digest over `local_buffer`; store the
seven durations and the perf record, fence; on a digest mismatch store
`error_code = 1` and fence. -/
def process_single_message (hash : List Nat → List Nat)
    (rt : ReaderTimes) (mallocOk : Bool) (s0 : SharedData) : ReaderResult :=
  let (s1, e1) := set_guest_state s0 GUEST_PROCESSING
  let n := s1.data_size
  let expected := s1.data_sha256
  if !mallocOk then
    { state := { s1 with error_code := 2 }
      events := e1 ++ [.store .error_code 2]
      phases := [], success := false, verifyInput := [], localWrites := []
      mallocOk := false }
  else
    let meas := s1.buffer.take n
    let localContent := meas
    let hashMatch := hash localContent = expected
    let t : TimingData :=
      { guest_copy_duration := rt.second
        guest_verify_duration := rt.cachedVerify
        guest_total_duration := rt.total
        guest_hot_cache_duration := rt.hot
        guest_cold_cache_duration := rt.cold
        guest_second_pass_duration := rt.second
        guest_cached_verify_duration := rt.cachedVerify
        guest_perf := rt.perfBlob }
    let s2 := { s1 with timing := t }
    let e2 : List Ev := [.store .timing 0, .store .perf 0, .fence]
    let s3 := if hashMatch then s2 else { s2 with error_code := 1 }
    let e3 : List Ev := if hashMatch then [] else [.store .error_code 1, .fence]
    { state := s3
      events := e1 ++ e2 ++ e3
      phases := memoryAccessPhases ++ [.copyToLocal, .verifyDigest .localBuf true]
      success := decide hashMatch
      verifyInput := localContent
      localWrites := List.range n
      mallocOk := true }

/-- The per-message body of the reader's monitor loop (guest_reader.c
monitor_latency lines 573-591): process the message, enter ACKNOWLEDGED,
wait for the host's READY, return to READY. -/
def readerHandleMessage (hash : List Nat → List Nat) (rt : ReaderTimes)
    (mallocOk : Bool) (s0 : SharedData) : ReaderResult × List Ev :=
  let r := process_single_message hash rt mallocOk s0
  let (s4, e4) := set_guest_state r.state GUEST_ACK
  let (s5, e5) := set_guest_state s4 GUEST_READY
  ({ r with state := s5 }, r.events ++ e4 ++ e5)

/-- The reader's startup stores (guest_reader.c main line 736 and
monitor_latency lines 533, 541): its own state word only. -/
def readerStartup (s0 : SharedData) : SharedData × List Ev :=
  let (s1, e1) := set_guest_state s0 GUEST_UNINIT
  let (s2, e2) := set_guest_state s1 GUEST_WAITING
  let (s3, e3) := set_guest_state s2 GUEST_READY
  (s3, e1 ++ e2 ++ e3)

/-! ## SField-ownership sets (spec §3 I1/I2) -/

/-- The fields spec invariant I1 assigns exclusively to the Writer. -/
def writerOwnedSpec : List SField :=
  [.magic, .test_complete, .host_state, .sequence, .data_size, .digest,
   .buffer]

/-- The fields spec invariant I2 assigns exclusively to the Reader. -/
def readerOwnedSpec : List SField :=
  [.guest_state, .error_code, .timing, .perf]

/-! ## Publication-order checker (spec §4.1 P1-P4) -/

/-- Scanner state for `pubCheck`: which of sequence, data_size, digest
and buffer have been stored, and whether a fence has been issued since
the most recent of those stores. -/
structure PubState where
  sq : Bool
  sz : Bool
  dg : Bool
  bf : Bool
  fenced : Bool

/-- Checks the publication contract on a writer trace: at every store of
`host_state = SENDING`, the sequence, data_size, digest and payload
stores have all happened, a fence separates the last of them from the
state store, and the event immediately after the state store is a
fence. -/
def pubCheckAux : PubState → List Ev → Bool
  | _, [] => true
  | st, .fence :: rest => pubCheckAux { st with fenced := true } rest
  | st, .store f v :: rest =>
    match f with
    | .sequence => pubCheckAux { st with sq := true, fenced := false } rest
    | .data_size => pubCheckAux { st with sz := true, fenced := false } rest
    | .digest => pubCheckAux { st with dg := true, fenced := false } rest
    | .buffer => pubCheckAux { st with bf := true, fenced := false } rest
    | .host_state =>
      if v = HOST_SENDING then
        st.sq && st.sz && st.dg && st.bf && st.fenced &&
        (match rest with | .fence :: _ => true | _ => false) &&
        pubCheckAux st rest
      else pubCheckAux st rest
    | _ => pubCheckAux st rest

/-- The publication-order check, started with nothing stored. -/
def pubCheck (evs : List Ev) : Bool :=
  pubCheckAux ⟨false, false, false, false, false⟩ evs

/-! ## Error-before-acknowledge checker (spec §7, integrity failure) -/

/-- Scanner state: a store of `error_code = 1` has been seen, and a
fence has been issued since it. -/
structure ErrAckState where
  seenErr : Bool
  fencedSinceErr : Bool

/-- Checks, on a reader trace, that every store of
`guest_state = ACKNOWLEDGED` is preceded by a store of `error_code = 1`
with a fence strictly between them. -/
def errBeforeAckAux : ErrAckState → List Ev → Bool
  | _, [] => true
  | st, .fence :: rest => errBeforeAckAux { st with fencedSinceErr := true } rest
  | st, .store f v :: rest =>
    match f with
    | .error_code =>
      if v = 1 then
        errBeforeAckAux { seenErr := true, fencedSinceErr := false } rest
      else errBeforeAckAux st rest
    | .guest_state =>
      if v = GUEST_ACK then
        st.seenErr && st.fencedSinceErr && errBeforeAckAux st rest
      else errBeforeAckAux st rest
    | _ => errBeforeAckAux st rest

/-- The error-before-acknowledge check. -/
def errBeforeAck (evs : List Ev) : Bool :=
  errBeforeAckAux ⟨false, false⟩ evs

/-! ## Concrete fixtures for witnesses and counterexamples -/

/-- The shared state after a completed handshake: ready token published,
both peers READY, header clear. -/
def readyState : SharedData :=
  ⟨MAGIC, 0, HOST_READY, GUEST_READY, 0, 0, List.replicate 32 0, 0,
   zeroTiming, []⟩

/-- A guest response reporting no error and all-zero timings. -/
def okResp : GuestResponse := ⟨zeroTiming, 0⟩

/-- An oracle for a fully successful iteration. -/
def okOracle : GuestOracle := ⟨true, true, okResp, true⟩

/-- An oracle for an iteration in which the guest never reaches
PROCESSING (the writer's first wait times out). -/
def timeoutOracle : GuestOracle := ⟨false, true, okResp, true⟩

/-- An oracle for an iteration in which the guest acknowledges with a
non-zero error code. -/
def errOracle : GuestOracle := ⟨true, true, ⟨zeroTiming, 1⟩, true⟩

/-- A hasher that never matches a 32-byte digest: forces an integrity
failure on any message whose advertised digest has 32 bytes. -/
def mismatchHash : List Nat → List Nat := fun _ => [1]

/-- A guest response with a 5 ns total duration and no error, for
exercising the notification estimate. -/
def witResp : GuestResponse := ⟨⟨0, 0, 5, 0, 0, 0, 0, 0⟩, 0⟩

/-- An oracle for a successful iteration reporting `witResp`. -/
def witOracle : GuestOracle := ⟨true, true, witResp, true⟩

/-! ## Helper lemmas -/

/-- A `wait_for_guest_state` poll loop over a view that never shows the
expected value returns false for every fuel. -/
theorem wait_for_guest_state_never {view : Nat → Nat} {expected : Nat}
    (h : ∀ t, view t ≠ expected) :
    ∀ fuel t, wait_for_guest_state view expected t fuel = false := by
  intro fuel
  induction fuel with
  | zero => intro t; rfl
  | succ k ih =>
    intro t
    simp only [wait_for_guest_state]
    rw [if_neg (h t)]
    exact ih (t + 1)

/-- A guest handshake loop over a view that never satisfies the
handshake condition returns false for every fuel. -/
theorem guest_wait_host_never {view : Nat → Nat × Nat}
    (h : ∀ t, ¬((view t).1 = MAGIC ∧ (view t).2 = HOST_READY)) :
    ∀ fuel t, guest_wait_host view t fuel = false := by
  intro fuel
  induction fuel with
  | zero => intro t; rfl
  | succ k ih =>
    intro t
    simp only [guest_wait_host]
    rw [if_neg (h t)]
    exact ih (t + 1)

/-- `List.range' i k` is strictly increasing. -/
theorem chain_lt_range' (k : Nat) : ∀ i, List.Chain' (· < ·) (List.range' i k) := by
  induction k with
  | zero => intro i; simp
  | succ k ih =>
    intro i
    rw [List.range'_succ]
    rcases k with _ | k
    · simp
    · rw [List.range'_succ]
      exact List.Chain'.cons (Nat.lt_succ_self i)
        (by rw [← List.range'_succ]; exact ih (i + 1))

/-! ## Further helper lemmas on traces -/

/-- `storedFields` distributes over trace concatenation. -/
theorem storedFields_append (a b : List Ev) :
    storedFields (a ++ b) = storedFields a ++ storedFields b := by
  simp [storedFields, List.filterMap_append]

/-- `storedSeqs` distributes over trace concatenation. -/
theorem storedSeqs_append (a b : List Ev) :
    storedSeqs (a ++ b) = storedSeqs a ++ storedSeqs b := by
  simp [storedSeqs, List.filterMap_append]

/-- `set_guest_state` stores nothing but the guest state word. -/
theorem set_guest_state_fields (s : SharedData) (v : Nat) :
    ∀ f ∈ storedFields (set_guest_state s v).2, f = SField.guest_state := by
  intro f hf
  simp only [set_guest_state] at hf
  split_ifs at hf <;> simp [storedFields] at hf <;> tauto

set_option maxHeartbeats 1000000 in
/-- The fields stored by one latency iteration of the writer. -/
theorem writerLatencyIter_fields (fs i : Nat) (p h : List Nat)
    (orc : GuestOracle) (wt : WriterTimes) (s0 : SharedData) :
    ∀ f ∈ storedFields (writerLatencyIter fs p h i orc wt s0).2.1,
      f ∈ writerOwnedSpec ∨ f = SField.error_code ∨ f = SField.timing ∨
        f = SField.perf := by
  intro f hf
  simp only [writerLatencyIter, set_host_state, applyGuestResponse] at hf
  split_ifs at hf <;>
    simp [storedFields, writerOwnedSpec] at hf ⊢ <;> tauto

set_option maxHeartbeats 1000000 in
/-- The fields stored by one bandwidth iteration of the writer. -/
theorem writerBandwidthIter_fields (fs j : Nat) (p h : List Nat)
    (orc : GuestOracle) (s0 : SharedData) :
    ∀ f ∈ storedFields (writerBandwidthIter fs p h j orc s0).2.1,
      f ∈ writerOwnedSpec ∨ f = SField.error_code ∨ f = SField.timing ∨
        f = SField.perf := by
  intro f hf
  simp only [writerBandwidthIter, set_host_state, applyGuestResponse] at hf
  split_ifs at hf <;>
    simp [storedFields, writerOwnedSpec] at hf ⊢ <;> tauto

/-- The fields stored by the writer's initialisation. -/
theorem init_shared_memory_fields (gv : Nat → Nat) (s0 : SharedData) :
    ∀ f ∈ storedFields (init_shared_memory gv s0).events,
      f ∈ writerOwnedSpec ∨ f = SField.error_code ∨ f = SField.timing ∨
        f = SField.perf := by
  intro f hf
  simp only [init_shared_memory, set_host_state] at hf
  split_ifs at hf <;>
    simp [storedFields, writerOwnedSpec] at hf ⊢ <;> tauto

/-- The fields stored by the writer's shutdown. -/
theorem writerShutdown_fields (s0 : SharedData) :
    ∀ f ∈ storedFields (writerShutdown s0).2,
      f ∈ writerOwnedSpec ∨ f = SField.error_code ∨ f = SField.timing ∨
        f = SField.perf := by
  intro f hf
  simp only [writerShutdown, set_host_state] at hf
  split_ifs at hf <;>
    simp [storedFields, writerOwnedSpec] at hf ⊢ <;> tauto

/-- The fields stored by the reader's startup. -/
theorem readerStartup_fields (s0 : SharedData) :
    ∀ f ∈ storedFields (readerStartup s0).2, f ∈ readerOwnedSpec := by
  intro f hf
  simp only [readerStartup] at hf
  rw [storedFields_append, storedFields_append] at hf
  simp only [List.mem_append] at hf
  rcases hf with (hf | hf) | hf <;>
    · have := set_guest_state_fields _ _ f hf
      simp [this, readerOwnedSpec]

/-- The fields stored while the reader handles one message. -/
theorem readerHandleMessage_fields (hash : List Nat → List Nat)
    (rt : ReaderTimes) (mOk : Bool) (s0 : SharedData) :
    ∀ f ∈ storedFields (readerHandleMessage hash rt mOk s0).2,
      f ∈ readerOwnedSpec := by
  intro f hf
  simp only [readerHandleMessage] at hf
  rw [storedFields_append, storedFields_append] at hf
  simp only [List.mem_append] at hf
  rcases hf with (hf | hf) | hf
  · simp only [process_single_message] at hf
    cases mOk
    · simp only [Bool.not_false, if_pos] at hf
      rw [storedFields_append] at hf
      simp only [List.mem_append] at hf
      rcases hf with hf | hf
      · have := set_guest_state_fields _ _ f hf
        simp [this, readerOwnedSpec]
      · simp [storedFields, readerOwnedSpec] at hf ⊢; tauto
    · simp only [Bool.not_true, Bool.false_eq_true, if_false] at hf
      rw [storedFields_append, storedFields_append] at hf
      simp only [List.mem_append] at hf
      rcases hf with (hf | hf) | hf
      · have := set_guest_state_fields _ _ f hf
        simp [this, readerOwnedSpec]
      · simp [storedFields, readerOwnedSpec] at hf ⊢; tauto
      · split_ifs at hf <;>
          simp [storedFields, readerOwnedSpec] at hf ⊢ <;> tauto
  · have := set_guest_state_fields _ _ f hf
    simp [this, readerOwnedSpec]
  · have := set_guest_state_fields _ _ f hf
    simp [this, readerOwnedSpec]

set_option maxHeartbeats 1000000 in
/-- The sequence values stored by one latency iteration: exactly `[i]`. -/
theorem writerLatencyIter_seqs (fs i : Nat) (p h : List Nat)
    (orc : GuestOracle) (wt : WriterTimes) (s0 : SharedData) :
    storedSeqs (writerLatencyIter fs p h i orc wt s0).2.1 = [i] := by
  simp only [writerLatencyIter, set_host_state, applyGuestResponse]
  split_ifs <;> simp [storedSeqs]

set_option maxHeartbeats 1000000 in
/-- The sequence values stored by one bandwidth iteration: exactly
`[0xFFFF + iter]`. -/
theorem writerBandwidthIter_seqs (fs iter : Nat) (p h : List Nat)
    (orc : GuestOracle) (s0 : SharedData) :
    storedSeqs (writerBandwidthIter fs p h iter orc s0).2.1 = [0xFFFF + iter] := by
  simp only [writerBandwidthIter, set_host_state, applyGuestResponse]
  split_ifs <;> simp [storedSeqs]

/-- The sequence values stored by the latency loop starting at `i` for
`k` iterations: `i, i+1, ..., i+k-1`. -/
theorem writerLatencyLoop_seqs (fs : Nat) (p h : List Nat)
    (orcs : Nat → GuestOracle) (wts : Nat → WriterTimes) :
    ∀ k i s, storedSeqs (writerLatencyLoop fs p h orcs wts i k s).2.1
      = List.range' i k := by
  intro k
  induction k with
  | zero => intro i s; rfl
  | succ k ih =>
    intro i s
    simp only [writerLatencyLoop]
    rw [storedSeqs_append, writerLatencyIter_seqs, ih, List.range'_succ]
    rfl

/-- The sequence values stored by the per-size bandwidth loop. -/
theorem writerBandwidthSizeLoop_seqs (fs : Nat) (p h : List Nat)
    (orcs : Nat → GuestOracle) :
    ∀ k i s, storedSeqs (writerBandwidthSizeLoop fs p h orcs i k s).2.1
      = List.range' (0xFFFF + i) k := by
  intro k
  induction k with
  | zero => intro i s; rfl
  | succ k ih =>
    intro i s
    simp only [writerBandwidthSizeLoop]
    rw [storedSeqs_append, writerBandwidthIter_seqs, ih, List.range'_succ]
    simp [Nat.add_assoc]

/-- The latency loop emits one CSV record per iteration, regardless of
outcomes: iteration failures never stop the suite. -/
theorem writerLatencyLoop_length (fs : Nat) (p h : List Nat)
    (orcs : Nat → GuestOracle) (wts : Nat → WriterTimes) :
    ∀ k i s, ((writerLatencyLoop fs p h orcs wts i k s).2.2).length = k := by
  intro k
  induction k with
  | zero => intro i s; rfl
  | succ k ih => intro i s; simp only [writerLatencyLoop, List.length_cons, ih]

/-- A bounded guest handshake loop over a view that never satisfies the
handshake condition within its window returns false. -/
theorem guest_wait_host_bounded (view : Nat → Nat × Nat) :
    ∀ fuel t, (∀ u, u < t + fuel →
        ¬((view u).1 = MAGIC ∧ (view u).2 = HOST_READY)) →
      guest_wait_host view t fuel = false := by
  intro fuel
  induction fuel with
  | zero => intro t _; rfl
  | succ k ih =>
    intro t hb
    simp only [guest_wait_host]
    rw [if_neg (hb t (by omega))]
    exact ih (t + 1) (fun u hu => hb u (by omega))

/-! ## Claims -/

/-- C1 (counterexample): the claim that only the Reader stores into
`error_code` and the timings fails on the code: the writer's latency
iteration itself stores into `error_code` and clears the timing block
(host_writer.c lines 696-699), so its trace is not contained in the
spec's Writer-owned field set. -/
theorem C1_ownership_cex :
    ¬ (∀ f ∈ storedFields
        (writerLatencyIter latencyFrameSize [] [] 0 okOracle ⟨0, 0⟩ readyState).2.1,
        f ∈ writerOwnedSpec) := by
  decide

/-- C1 (amended): across the writer's initialisation, latency and
bandwidth iterations and shutdown, every stored field is Writer-owned
per spec I1 or one of `error_code`, `timing`, `perf` (which the Writer
clears); in particular the Writer never stores the Reader's state word.
Across the reader's startup and message handling, every stored field is
Reader-owned per spec I2; in particular the Reader never stores any
Writer-owned field. -/
theorem C1_field_ownership_amended :
    (∀ (gv : Nat → Nat) (s0 : SharedData) (fs i j : Nat) (p h : List Nat)
       (orc orc2 : GuestOracle) (wt : WriterTimes) (s1 s2 s3 : SharedData),
       ∀ f ∈ storedFields ((init_shared_memory gv s0).events ++
           (writerLatencyIter fs p h i orc wt s1).2.1 ++
           (writerBandwidthIter fs p h j orc2 s2).2.1 ++
           (writerShutdown s3).2),
         f ∈ writerOwnedSpec ∨ f = SField.error_code ∨ f = SField.timing ∨
           f = SField.perf) ∧
    (∀ (hash : List Nat → List Nat) (rt : ReaderTimes) (mOk : Bool)
       (r0 r1 : SharedData),
       ∀ f ∈ storedFields ((readerStartup r0).2 ++
           (readerHandleMessage hash rt mOk r1).2),
         f ∈ readerOwnedSpec) := by
  constructor
  · intro gv s0 fs i j p h orc orc2 wt s1 s2 s3 f hf
    rw [storedFields_append, storedFields_append, storedFields_append] at hf
    simp only [List.mem_append] at hf
    rcases hf with ((hf | hf) | hf) | hf
    · exact init_shared_memory_fields gv s0 f hf
    · exact writerLatencyIter_fields fs i p h orc wt s1 f hf
    · exact writerBandwidthIter_fields fs j p h orc2 s2 f hf
    · exact writerShutdown_fields s3 f hf
  · intro hash rt mOk r0 r1 f hf
    rw [storedFields_append] at hf
    simp only [List.mem_append] at hf
    rcases hf with hf | hf
    · exact readerStartup_fields r0 f hf
    · exact readerHandleMessage_fields hash rt mOk r1 f hf

/-- C2 (counterexample): in an iteration whose wait for PROCESSING
times out, the writer does not reset `host_state` to READY: on the
`continue` path `host_state` remains SENDING (the
`set_host_state(READY)` at host_writer.c line 864 is only reached on
success). -/
theorem C2_timeout_cex :
    (writerLatencyIter latencyFrameSize [] [] 0 timeoutOracle ⟨0, 0⟩ readyState).1.host_state
      ≠ HOST_READY ∧
    (writerLatencyIter latencyFrameSize [] [] 0 timeoutOracle ⟨0, 0⟩ readyState).2.2.success
      = false := by
  decide

set_option maxHeartbeats 1000000 in
/-- C2 (amended): when either the PROCESSING wait or the ACKNOWLEDGED
wait times out, the writer records the iteration as failed (the all-zero
row) and skips to the next iteration, but it does not reset
`writer_state`: `host_state` is left at SENDING. -/
theorem C2_timeout_skip_amended (frameSize i : Nat) (payload hsh : List Nat)
    (orc : GuestOracle) (wt : WriterTimes) (s0 : SharedData)
    (hto : orc.reachesProcessing = false ∨ orc.reachesAck = false) :
    (writerLatencyIter frameSize payload hsh i orc wt s0).2.2 = failRow i ∧
    (writerLatencyIter frameSize payload hsh i orc wt s0).1.host_state
      = HOST_SENDING := by
  rcases hto with hto | hto <;>
    simp only [writerLatencyIter, set_host_state, applyGuestResponse, hto,
      Bool.not_false, Bool.not_true, if_true] <;>
    split_ifs <;> simp_all [HOST_SENDING]

/-- C2 (witness): a concrete timed-out iteration from the post-handshake
state. -/
theorem C2_timeout_skip_amended_witness :
    (writerLatencyIter latencyFrameSize [] [] 0 timeoutOracle ⟨0, 0⟩ readyState).2.2
      = failRow 0 ∧
    (writerLatencyIter latencyFrameSize [] [] 0 timeoutOracle ⟨0, 0⟩ readyState).1.host_state
      = HOST_SENDING :=
  C2_timeout_skip_amended latencyFrameSize 0 [] [] timeoutOracle ⟨0, 0⟩
    readyState (Or.inl rfl)

set_option maxHeartbeats 1000000 in
/-- C3 (confirmed): in every latency and every bandwidth iteration, any
store of `writer_state = SENDING` is preceded by the stores of
`sequence`, `data_size`, the digest and the payload with a full fence
after the last of them, and is immediately followed by a full fence:
publication order P1-P4. -/
theorem C3_publication_order :
    ∀ (fs i iter : Nat) (p h : List Nat) (orc orc2 : GuestOracle)
      (wt : WriterTimes) (s0 s1 : SharedData),
      pubCheck (writerLatencyIter fs p h i orc wt s0).2.1 = true ∧
      pubCheck (writerBandwidthIter fs p h iter orc2 s1).2.1 = true := by
  intro fs i iter p h orc orc2 wt s0 s1
  constructor
  · simp only [writerLatencyIter, set_host_state, applyGuestResponse]
    split_ifs <;>
      simp [pubCheck, pubCheckAux, HOST_SENDING, HOST_READY]
  · simp only [writerBandwidthIter, set_host_state, applyGuestResponse]
    split_ifs <;>
      simp [pubCheck, pubCheckAux, HOST_SENDING, HOST_READY]

/-- C4 (confirmed): when the recomputed digest of the local copy differs
from the advertised digest, the reader's trace stores `error_code = 1`
with a fence before its ACKNOWLEDGED store and leaves `error_code = 1`
in the region; the writer, seeing a non-zero error code, records the
iteration as the all-zero failed row; and the latency loop emits one
record per iteration regardless of outcomes (the suite never stops). -/
theorem C4_integrity_failure :
    (∀ (hash : List Nat → List Nat) (rt : ReaderTimes) (s0 : SharedData),
       hash (s0.buffer.take s0.data_size) ≠ s0.data_sha256 →
       errBeforeAck (readerHandleMessage hash rt true s0).2 = true ∧
       (readerHandleMessage hash rt true s0).1.state.error_code = 1) ∧
    (∀ (fs i : Nat) (p h : List Nat) (orc : GuestOracle) (wt : WriterTimes)
       (s0 : SharedData),
       orc.reachesProcessing = true → orc.reachesAck = true →
       orc.resp.error_code ≠ 0 →
       (writerLatencyIter fs p h i orc wt s0).2.2 = failRow i) ∧
    (∀ (fs : Nat) (p h : List Nat) (orcs : Nat → GuestOracle)
       (wts : Nat → WriterTimes) (k i : Nat) (s : SharedData),
       ((writerLatencyLoop fs p h orcs wts i k s).2.2).length = k) := by
  refine ⟨?_, ?_, ?_⟩
  · intro hash rt s0 hm
    constructor
    · by_cases hgs : s0.guest_state = GUEST_PROCESSING
      · simp only [readerHandleMessage, process_single_message,
          set_guest_state, if_pos hgs]
        simp only [Bool.not_true, Bool.false_eq_true, if_false, hgs]
        rw [if_neg hm, if_neg hm]
        simp [errBeforeAck, errBeforeAckAux, GUEST_ACK, GUEST_PROCESSING,
          GUEST_READY]
      · simp only [readerHandleMessage, process_single_message,
          set_guest_state, if_neg hgs]
        simp only [Bool.not_true, Bool.false_eq_true, if_false]
        rw [if_neg hm, if_neg hm]
        simp [errBeforeAck, errBeforeAckAux, GUEST_ACK, GUEST_PROCESSING,
          GUEST_READY]
    · by_cases hgs : s0.guest_state = GUEST_PROCESSING
      · simp only [readerHandleMessage, process_single_message,
          set_guest_state, if_pos hgs]
        simp only [Bool.not_true, Bool.false_eq_true, if_false]
        rw [if_neg hm]
        split_ifs <;> rfl
      · simp only [readerHandleMessage, process_single_message,
          set_guest_state, if_neg hgs]
        simp only [Bool.not_true, Bool.false_eq_true, if_false]
        rw [if_neg hm]
        split_ifs <;> rfl
  · intro fs i p h orc wt s0 hp ha he
    simp only [writerLatencyIter, set_host_state, applyGuestResponse, hp, ha,
      Bool.not_true, Bool.false_eq_true, if_false]
    split_ifs <;> simp_all
  · exact fun fs p h orcs wts => writerLatencyLoop_length fs p h orcs wts

/-- C4 (witness): a concrete mismatching message from the post-handshake
state, using a hasher that never reproduces the advertised 32-byte
digest. -/
theorem C4_integrity_failure_witness :
    errBeforeAck (readerHandleMessage mismatchHash ⟨0, 0, 0, 0, 0, 0⟩ true readyState).2
      = true ∧
    (readerHandleMessage mismatchHash ⟨0, 0, 0, 0, 0, 0⟩ true readyState).1.state.error_code
      = 1 :=
  C4_integrity_failure.1 mismatchHash ⟨0, 0, 0, 0, 0, 0⟩ readyState (by decide)

set_option maxRecDepth 10000 in
/-- C5 (counterexample): the claim that a handshake timeout is fatal for
the affected peer fails for the Writer: with a guest that never reaches
READY, the writer's 10-second initialisation wait times out, yet
`init_shared_memory` triggers no exit (host_writer.c lines 1192-1198
print a warning and proceed). -/
theorem C5_handshake_cex :
    wait_for_guest_state (fun _ => GUEST_UNINIT) GUEST_READY 0 writerInitWaitFuel
      = false ∧
    (init_shared_memory (fun _ => GUEST_UNINIT) readyState).guestWasReady = false ∧
    (init_shared_memory (fun _ => GUEST_UNINIT) readyState).exitCode = none := by
  have hne : ∀ t : Nat, (fun _ : Nat => GUEST_UNINIT) t ≠ GUEST_READY := by
    intro t
    show GUEST_UNINIT ≠ GUEST_READY
    decide
  have hw := wait_for_guest_state_never hne writerInitWaitFuel 0
  refine ⟨hw, ?_, rfl⟩
  simp only [init_shared_memory]
  exact hw

/-- C5 (amended): a handshake timeout is fatal for the Reader only: a
reader whose 5000-poll window (50 s at 10 ms per poll) never observes
the ready token together with `writer_state = READY` exits with status
1; the Writer's 10-second initialisation wait for the Reader's READY
is non-fatal: `init_shared_memory` has no exit path. -/
theorem C5_handshake_amended :
    (∀ view : Nat → Nat × Nat,
       (∀ t, t < guestHandshakePolls →
          ¬((view t).1 = MAGIC ∧ (view t).2 = HOST_READY)) →
       readerInitExit view = some 1) ∧
    guestHandshakePolls * guestHandshakeSleepUs = 50000000 ∧
    (∀ (gv : Nat → Nat) (s0 : SharedData),
       (init_shared_memory gv s0).exitCode = none) := by
  refine ⟨?_, by decide, fun gv s0 => rfl⟩
  intro view h
  unfold readerInitExit init_guest_communication
  rw [guest_wait_host_bounded view guestHandshakePolls 0
    (fun u hu => h u (by omega))]
  rfl

/-- C5 (witness): a concrete view that never shows the handshake
condition leads the reader to exit with status 1. -/
theorem C5_handshake_amended_witness :
    readerInitExit (fun _ => (0, 0)) = some 1 :=
  C5_handshake_amended.1 (fun _ => (0, 0))
    (fun t _ => by
      show ¬((0 : Nat) = MAGIC ∧ (0 : Nat) = HOST_READY)
      decide)

/-- C6 (confirmed): for every message (with a successful measurement
buffer allocation) the reader's phase trace is exactly: untimed warm-up
read, fence; timed hot read, fence; flush, fence, timed cold read,
fence; flush, fence, timed bulk copy into the reader-local measurement
buffer, fence; copy into the local buffer; timed digest verification
over the local buffer — and the bytes verified are the local copy of
the advertised `data_size` prefix of the shared payload, not a direct
read of the shared region. -/
theorem C6_reader_phase_order :
    ∀ (hash : List Nat → List Nat) (rt : ReaderTimes) (s0 : SharedData),
      (process_single_message hash rt true s0).phases =
        [.readPayload false, .fenceP, .readPayload true, .fenceP,
         .flush, .fenceP, .readPayload true, .fenceP, .flush, .fenceP,
         .copyToMeasurement true, .fenceP, .copyToLocal,
         .verifyDigest .localBuf true] ∧
      (process_single_message hash rt true s0).verifyInput
        = s0.buffer.take s0.data_size := by
  intro hash rt s0
  simp only [process_single_message, set_guest_state, memoryAccessPhases,
    Bool.not_true, Bool.false_eq_true, if_false]
  split_ifs <;> simp

/-- C7 (confirmed): the legacy `guest_copy_duration` the reader writes
into the shared timing block always equals `guest_second_pass_duration`
(the Phase C bulk-copy time): both are assigned the same measured
value (guest_reader.c lines 472 and 479). -/
theorem C7_copy_duration_legacy :
    ∀ (hash : List Nat → List Nat) (rt : ReaderTimes) (s0 : SharedData),
      (process_single_message hash rt true s0).state.timing.guest_copy_duration =
      (process_single_message hash rt true s0).state.timing.guest_second_pass_duration := by
  intro hash rt s0
  simp only [process_single_message, set_guest_state,
    Bool.not_true, Bool.false_eq_true, if_false]
  split_ifs <;> simp

set_option maxHeartbeats 1000000 in
/-- C8 (confirmed): on every successful iteration the writer's
`notification_est` equals `roundtrip - guest_total` when the round trip
exceeds the guest total and 0 otherwise — i.e. the clamped difference
(`Nat` truncated subtraction) — and never exceeds the round-trip time,
so the unsigned subtraction cannot wrap. -/
theorem C8_notification_estimate (fs i : Nat) (p h : List Nat)
    (orc : GuestOracle) (wt : WriterTimes) (s0 : SharedData)
    (hp : orc.reachesProcessing = true) (ha : orc.reachesAck = true)
    (he : orc.resp.error_code = 0)
    (hr : wt.roundtripTime < 2 ^ 64)
    (ht : orc.resp.timing.guest_total_duration < 2 ^ 64) :
    ((writerLatencyIter fs p h i orc wt s0).2.2).notification =
      wt.roundtripTime - orc.resp.timing.guest_total_duration ∧
    ((writerLatencyIter fs p h i orc wt s0).2.2).notification ≤ wt.roundtripTime ∧
    ((writerLatencyIter fs p h i orc wt s0).2.2).success = true := by
  simp only [writerLatencyIter, set_host_state, applyGuestResponse, hp, ha,
    Bool.not_true, Bool.false_eq_true, if_false, he]
  split_ifs <;> simp_all [sub64] <;> omega

/-- C8 (witness): a concrete successful iteration with round trip 9 ns
and guest total 5 ns. -/
theorem C8_notification_estimate_witness :
    ((writerLatencyIter latencyFrameSize [] [] 0 witOracle ⟨3, 9⟩ readyState).2.2).notification =
      9 - witOracle.resp.timing.guest_total_duration ∧
    ((writerLatencyIter latencyFrameSize [] [] 0 witOracle ⟨3, 9⟩ readyState).2.2).notification ≤ 9 ∧
    ((writerLatencyIter latencyFrameSize [] [] 0 witOracle ⟨3, 9⟩ readyState).2.2).success = true :=
  C8_notification_estimate latencyFrameSize 0 [] [] witOracle ⟨3, 9⟩ readyState
    rfl rfl rfl (by decide) (by decide)

/-- C9 (counterexample): a bandwidth run over the source's three frame
sizes with two iterations per size publishes the sequence values
65535, 65536, 65535, 65536, 65535, 65536 — not strictly monotonic,
because `sequence = 0xFFFF + iter` restarts for each frame size. -/
theorem C9_sequence_cex :
    ¬ List.Chain' (· < ·)
      (storedSeqs (test_bandwidth (fun _ => []) (fun _ => [])
        (fun _ _ => okOracle) 2 readyState).2) := by
  intro hch
  rw [show storedSeqs (test_bandwidth (fun _ => []) (fun _ => [])
        (fun _ _ => okOracle) 2 readyState).2
      = [65535, 65536, 65535, 65536, 65535, 65536] from rfl] at hch
  simp [List.chain'_cons] at hch

/-- C9 (amended): the sequence values published by the latency suite are
strictly monotonic (`sequence = i`), and within one payload size of the
bandwidth suite they are strictly monotonic (`sequence = 0xFFFF + iter`);
monotonicity does not extend across the frame sizes of a bandwidth run,
whose counter restarts at 0xFFFF. -/
theorem C9_sequence_monotonic_amended :
    (∀ (p h : List Nat) (orcs : Nat → GuestOracle) (wts : Nat → WriterTimes)
       (n : Nat) (s0 : SharedData),
       List.Chain' (· < ·) (storedSeqs (test_latency p h orcs wts n s0).2.1)) ∧
    (∀ (fs : Nat) (p h : List Nat) (orcs : Nat → GuestOracle) (iters : Nat)
       (s0 : SharedData),
       List.Chain' (· < ·)
         (storedSeqs (writerBandwidthSizeLoop fs p h orcs 0 iters s0).2.1)) := by
  constructor
  · intro p h orcs wts n s0
    rw [test_latency, if_neg (by decide), writerLatencyLoop_seqs]
    exact chain_lt_range' n 0
  · intro fs p h orcs iters s0
    rw [writerBandwidthSizeLoop_seqs]
    exact chain_lt_range' iters (0xFFFF + 0)

/-- C10 (confirmed): the reader's copy into the fixed local buffer
writes index j for every j below the advertised `data_size`, with no
check of `data_size` against the buffer's 3840*2160*3 = 24883200-byte
capacity; every written index is in bounds precisely when
`data_size ≤ 24883200`. -/
theorem C10_unchecked_copy :
    ∀ (hash : List Nat → List Nat) (rt : ReaderTimes) (s0 : SharedData),
      (process_single_message hash rt true s0).localWrites
        = List.range s0.data_size ∧
      ((∀ j ∈ (process_single_message hash rt true s0).localWrites,
          j < localBufferCapacity) ↔ s0.data_size ≤ localBufferCapacity) ∧
      localBufferCapacity = 24883200 := by
  intro hash rt s0
  have hw : (process_single_message hash rt true s0).localWrites
      = List.range s0.data_size := by
    simp only [process_single_message, set_guest_state,
      Bool.not_true, Bool.false_eq_true, if_false]
    split_ifs <;> simp
  refine ⟨hw, ?_, by decide⟩
  rw [hw]
  simp only [List.mem_range]
  constructor
  · intro H
    by_contra hc
    exact absurd (H localBufferCapacity (by omega)) (by omega)
  · intro hle j hj
    omega
